import Mathlib

set_option maxRecDepth 10000

/-!
Verification of the p0f-go protocol engine (package `p0f`).

The Go source is shallowly embedded: byte buffers are `List Nat` whose
elements are byte values, machine integers are `Nat` with explicit
`% 256`-style arithmetic where the code packs or unpacks them, fallible
operations return `Except`, and the concurrent queue / worker / shutdown
logic is an explicit state machine stepped by pure functions.  The host
platforms this code runs on are little-endian, so Go's
`binary.NativeEndian` is modelled as little-endian throughout.
-/

/-! ## Constants (from the `const` block of the p0f package) -/

def requestChanSize : Nat := 1024

def requestSize : Nat := 21

def responseSize : Nat := 44 + (32 * 6)

def ipv4Dword : Nat := 4

def ipv6Dword : Nat := 6

def resultBadQuery : Nat := 0x00

def resultOk : Nat := 0x10

def resultNoMatch : Nat := 0x20

def p0fStrMax : Nat := 32

def magicBytesSend : Nat := 0x50304601

def magicBytesRcv : Nat := 0x50304602

/-! ## Little-endian packing helpers (Go `binary.NativeEndian`) -/

/-- `binary.NativeEndian.PutUint32`: the four bytes of `v`, least significant
first. -/
def putUint32 (v : Nat) : List Nat :=
  [v % 256, v / 2 ^ 8 % 256, v / 2 ^ 16 % 256, v / 2 ^ 24 % 256]

/-- Read a little-endian 32-bit value from `bs` at byte offset `off`. -/
def readUint32 (bs : List Nat) (off : Nat) : Nat :=
  bs.getD off 0 + 2 ^ 8 * bs.getD (off + 1) 0 +
    2 ^ 16 * bs.getD (off + 2) 0 + 2 ^ 24 * bs.getD (off + 3) 0

/-- Read a little-endian 16-bit value from `bs` at byte offset `off`. -/
def readUint16 (bs : List Nat) (off : Nat) : Nat :=
  bs.getD off 0 + 2 ^ 8 * bs.getD (off + 1) 0

/-! ## Request encoding (`P0f.writeRequest`) -/

/-- A `net.IP` as the encoder sees it: `To4` succeeded (4 address bytes), or
only `To16` did (16 address bytes). -/
inductive IP where
  | v4 (bytes : List Nat)
  | v6 (bytes : List Nat)
deriving DecidableEq, Repr

/-- `P0f.writeRequest`: a 21-byte buffer, zero-initialised, with the send
magic at bytes 0-3 (native order), the family tag at byte 4 and the address
bytes written from offset 5 on. -/
def writeRequest (ip : IP) : List Nat :=
  match ip with
  | .v4 bs => putUint32 magicBytesSend ++ [ipv4Dword] ++ (bs ++ List.replicate (16 - bs.length) 0)
  | .v6 bs => putUint32 magicBytesSend ++ [ipv6Dword] ++ (bs ++ List.replicate (16 - bs.length) 0)

/-! ## Fixed-width C string decoding (`trstr`) -/

/-- The scan loop of `trstr`: `for i := 1; i < 32; i++`, with `fuel`
remaining iterations (`i + fuel = 32`).  Finding a zero byte at index `i`
returns the first `i` bytes; running out of indices returns the whole
buffer. -/
def trstrLoop (cStr : List Nat) (i : Nat) (fuel : Nat) : Option (List Nat) :=
  match fuel with
  | 0 => some cStr
  | fuel + 1 =>
    if cStr.getD i 0 = 0 then some (cStr.take i)
    else trstrLoop cStr (i + 1) fuel

/-- `trstr`: a null first byte means the field is absent; otherwise scan
indices 1..31 for the first null and truncate there, or keep all 32 bytes. -/
def trstr (cStr : List Nat) : Option (List Nat) :=
  if cStr.getD 0 0 = 0 then none
  else trstrLoop cStr 1 31

/-! ## Response decoding (`P0f.readResponse`) -/

/-- The decoded `P0fResponse` struct.  String fields keep their raw bytes;
`Option.none` is Go's `nil` pointer (absent field). -/
structure P0fResponse where
  ip : String
  firstSeen : Nat
  lastSeen : Nat
  totalCount : Nat
  uptimeMin : Nat
  upModDays : Nat
  lastNat : Nat
  lastChg : Nat
  distance : Nat
  badSw : Nat
  osMatchQ : Nat
  osName : Option (List Nat)
  osFlavor : Option (List Nat)
  httpName : Option (List Nat)
  httpFlavor : Option (List Nat)
  linkMtu : Nat
  linkType : Option (List Nat)
  language : Option (List Nat)
deriving DecidableEq, Repr

/-- The distinct error outcomes of `readResponse`, one per `errors.New` /
`fmt.Errorf` site. -/
inductive P0fError where
  | invalidMagic
  | badQuery
  | noMatch
  | unknownStatus (code : Nat)
deriving DecidableEq, Repr

/-- A 32-byte string field of the response frame starting at `off`. -/
def strField (bs : List Nat) (off : Nat) : List Nat :=
  (bs.drop off).take p0fStrMax

/-- The `P0fResponse` literal built in the `resultOk` arm of
`readResponse`'s `switch`, with each field unpacked from its packed-struct
offset in the frame `bs`. -/
def okResponse (ip : String) (bs : List Nat) : P0fResponse :=
  { ip := ip
    firstSeen := readUint32 bs 8
    lastSeen := readUint32 bs 12
    totalCount := readUint32 bs 16
    uptimeMin := readUint32 bs 20
    upModDays := readUint32 bs 24
    lastNat := readUint32 bs 28
    lastChg := readUint32 bs 32
    distance := readUint16 bs 36
    badSw := bs.getD 38 0
    osMatchQ := bs.getD 39 0
    osName := trstr (strField bs 40)
    osFlavor := trstr (strField bs 72)
    httpName := trstr (strField bs 104)
    httpFlavor := trstr (strField bs 136)
    linkMtu := readUint16 bs 168
    linkType := trstr (strField bs 170)
    language := trstr (strField bs 202) }

/-- `P0f.readResponse` on an already-read 236-byte frame `bs`.
`binary.Read` with `binary.NativeEndian` unpacks the packed struct, giving
fixed little-endian offsets: magic 0, status 4, seven 32-bit fields at
8..35, distance 36, badSw 38, osMatchQ 39, four 32-byte strings at
40/72/104/136, linkMtu 168, two 32-byte strings at 170/202 (bytes 234-235
of the frame are not part of the struct). -/
def readResponse (ip : String) (bs : List Nat) : Except P0fError P0fResponse :=
  let magic := readUint32 bs 0
  let status := readUint32 bs 4
  if magic ≠ magicBytesRcv then .error .invalidMagic
  else if status = resultOk then .ok (okResponse ip bs)
  else if status = resultBadQuery then .error .badQuery
  else if status = resultNoMatch then .error .noMatch
  else .error (.unknownStatus status)

/-! ## Engine state machine (`P0f.Query`, `P0f.Shutdown`, `P0f.start`)

The shared mutable state of a `P0f` instance: the atomic `shutdown` flag,
the buffered `requestQueue` channel (contents plus a closed bit), the
position of the background worker goroutine and the connection.  Each Go
operation becomes a pure step function on this state; an interleaving of
the goroutines is a sequence of step applications.  Requests are
identified by `Nat` ids; `done` lists the ids whose `wg.Done` has fired
(result or error slot populated), in completion order. -/

structure EngineState where
  shutdown : Bool
  closed : Bool
  queue : List Nat
  done : List Nat
  closeCount : Nat
  connClosed : Bool
  workerExited : Bool
deriving DecidableEq, Repr

/-- The `P0f` state right after `New`: worker running, everything empty. -/
def initialEngine : EngineState :=
  { shutdown := false, closed := false, queue := [], done := [],
    closeCount := 0, connClosed := false, workerExited := false }

/-- The three ways `P0f.Query`'s submission phase can end. -/
inductive QueryOutcome where
  | enqueued
  | errShutdown
  | errCapacity
deriving DecidableEq, Repr

/-- The submission phase of `P0f.Query`: check the shutdown flag, then a
non-blocking `select` send on the buffered channel (succeeds only when the
buffer holds fewer than `requestChanSize` items); on the `default` branch
the queue is untouched. -/
def queryStep (s : EngineState) (r : Nat) : QueryOutcome × EngineState :=
  if s.shutdown then (.errShutdown, s)
  else if s.queue.length < requestChanSize then
    (.enqueued, { s with queue := s.queue ++ [r] })
  else (.errCapacity, s)

/-- `P0f.Shutdown`: `CompareAndSwap(false, true)` on the atomic flag; only
the winner closes the channel (`closeCount` counts `close` calls). -/
def shutdownStep (s : EngineState) : EngineState :=
  if s.shutdown then s
  else { s with shutdown := true, closed := true, closeCount := s.closeCount + 1 }

/-- One iteration of the worker loop in `P0f.start`: re-check the loop
condition `!p.shutdown.Load()` (exiting runs the deferred `conn.Close()`),
then receive from the channel — a buffered item is processed and its
`wg.Done` fires; `ok = false` (closed and empty) exits the loop; an empty
open channel blocks (the state is unchanged until someone else steps). -/
def workerStep (s : EngineState) : EngineState :=
  if s.workerExited then s
  else if s.shutdown then { s with workerExited := true, connClosed := true }
  else
    match s.queue with
    | r :: rest => { s with queue := rest, done := s.done ++ [r] }
    | [] =>
      if s.closed then { s with workerExited := true, connClosed := true }
      else s

/-! ## Theorems -/

/-- C6: a 236-byte response frame whose first four bytes do not decode (in
native order) to the receive magic `0x50304602` makes `readResponse` return
the invalid-magic protocol error, and the `Except.error` result carries no
decoded fields at all. -/
theorem readResponse_bad_magic (ip : String) (bs : List Nat)
    (hlen : bs.length = 236) (hmagic : readUint32 bs 0 ≠ magicBytesRcv) :
    readResponse ip bs = .error .invalidMagic := by
  simp [readResponse, hmagic]

/-- Witness for C6: an all-zero 236-byte frame has magic 0, which is
rejected. -/
theorem readResponse_bad_magic_witness :
    readResponse "1.2.3.4" (List.replicate 236 0) = .error .invalidMagic :=
  readResponse_bad_magic "1.2.3.4" (List.replicate 236 0) (by decide) (by decide)

/-- C4: on a 236-byte frame with valid magic, `readResponse` dispatches on
the 32-bit status at offset 4: `0x10` yields a decoded result, `0x00` the
bad-query domain error, `0x20` the no-match domain error, and anything
else the unrecognized-status error carrying that status. -/
theorem readResponse_status_dispatch (ip : String) (bs : List Nat)
    (hlen : bs.length = 236) (hmagic : readUint32 bs 0 = magicBytesRcv) :
    (readUint32 bs 4 = 0x10 → ∃ r, readResponse ip bs = .ok r) ∧
    (readUint32 bs 4 = 0x00 → readResponse ip bs = .error .badQuery) ∧
    (readUint32 bs 4 = 0x20 → readResponse ip bs = .error .noMatch) ∧
    (readUint32 bs 4 ≠ 0x00 → readUint32 bs 4 ≠ 0x10 → readUint32 bs 4 ≠ 0x20 →
      readResponse ip bs = .error (.unknownStatus (readUint32 bs 4))) := by
  refine ⟨fun h => ⟨okResponse ip bs, ?_⟩, fun h => ?_, fun h => ?_, fun h0 h16 h32 => ?_⟩
  · simp [readResponse, hmagic, h, resultOk]
  · simp [readResponse, hmagic, h, resultOk, resultBadQuery]
  · simp [readResponse, hmagic, h, resultOk, resultBadQuery, resultNoMatch]
  · simp [readResponse, hmagic, resultOk, resultBadQuery, resultNoMatch, h0, h16, h32]

/-- Witness for C4: a valid-magic frame with status 0 decodes to the
bad-query error. -/
theorem readResponse_status_dispatch_witness :
    readResponse "1.2.3.4" ([2, 70, 48, 80] ++ List.replicate 232 0) = .error .badQuery :=
  (readResponse_status_dispatch "1.2.3.4" ([2, 70, 48, 80] ++ List.replicate 232 0)
    (by decide) (by decide)).2.1 (by decide)

/-- C5: on a 236-byte frame with valid magic and status `0x10`,
`readResponse` returns a result whose numeric fields are read from the
frame at the packed-struct offsets: the seven 32-bit fields at bytes
8..35, the 16-bit distance at 36, the lying flag at 38, the match quality
at 39, and the 16-bit link MTU at 168, right after the four 32-byte string
buffers at 40/72/104/136. -/
theorem readResponse_ok_field_offsets (ip : String) (bs : List Nat)
    (hlen : bs.length = 236) (hmagic : readUint32 bs 0 = magicBytesRcv)
    (hstatus : readUint32 bs 4 = 0x10) :
    readResponse ip bs = .ok {
      ip := ip
      firstSeen := readUint32 bs 8
      lastSeen := readUint32 bs 12
      totalCount := readUint32 bs 16
      uptimeMin := readUint32 bs 20
      upModDays := readUint32 bs 24
      lastNat := readUint32 bs 28
      lastChg := readUint32 bs 32
      distance := readUint16 bs 36
      badSw := bs.getD 38 0
      osMatchQ := bs.getD 39 0
      osName := trstr ((bs.drop 40).take 32)
      osFlavor := trstr ((bs.drop 72).take 32)
      httpName := trstr ((bs.drop 104).take 32)
      httpFlavor := trstr ((bs.drop 136).take 32)
      linkMtu := readUint16 bs 168
      linkType := trstr ((bs.drop 170).take 32)
      language := trstr ((bs.drop 202).take 32) } := by
  simp [readResponse, okResponse, strField, p0fStrMax, hmagic, hstatus, resultOk]

/-- Witness for C5: a crafted frame with firstSeen 1, lastSeen 2, ...,
lastChg 7, distance 265 and all strings empty decodes to exactly those
values. -/
theorem readResponse_ok_field_offsets_witness :
    readResponse "1.2.3.4"
      ([2, 70, 48, 80, 16, 0, 0, 0,
        1, 0, 0, 0, 2, 0, 0, 0, 3, 0, 0, 0, 4, 0, 0, 0,
        5, 0, 0, 0, 6, 0, 0, 0, 7, 0, 0, 0,
        9, 1, 11, 12] ++ List.replicate 196 0) = .ok {
      ip := "1.2.3.4", firstSeen := 1, lastSeen := 2, totalCount := 3,
      uptimeMin := 4, upModDays := 5, lastNat := 6, lastChg := 7,
      distance := 265, badSw := 11, osMatchQ := 12,
      osName := none, osFlavor := none, httpName := none, httpFlavor := none,
      linkMtu := 0, linkType := none, language := none } := by
  rw [readResponse_ok_field_offsets "1.2.3.4" _ (by decide) (by decide) (by decide)]
  rfl

/-- C8: a `Query` call that observes the shutdown flag fails with the
shutdown error before touching the queue: the whole engine state is
returned unchanged. -/
theorem query_after_shutdown (s : EngineState) (r : Nat)
    (h : s.shutdown = true) :
    queryStep s r = (.errShutdown, s) := by
  simp [queryStep, h]

/-- Witness for C8: a query submitted right after shutdown of a fresh
engine fails with the shutdown error and leaves the state alone. -/
theorem query_after_shutdown_witness :
    queryStep (shutdownStep initialEngine) 5 = (.errShutdown, shutdownStep initialEngine) :=
  query_after_shutdown (shutdownStep initialEngine) 5 (by decide)

/-- C7: with the shutdown flag clear and the queue at its 1024 capacity,
`Query`'s non-blocking send hits the `default` branch: it fails with the
capacity error and leaves the state (in particular the queue) unchanged;
moreover a `queryStep` never grows the queue beyond 1024. -/
theorem query_full_queue (s : EngineState) (r : Nat)
    (hs : s.shutdown = false) (hfull : s.queue.length = requestChanSize) :
    queryStep s r = (.errCapacity, s) ∧
    (∀ t : EngineState, ∀ q : Nat, t.queue.length ≤ requestChanSize →
      ((queryStep t q).2).queue.length ≤ requestChanSize) := by
  constructor
  · simp [queryStep, hs, hfull]
  · intro t q ht
    unfold queryStep
    split
    · simpa using ht
    · split
      · simp only [List.length_append, List.length_cons, List.length_nil]
        omega
      · simpa using ht

/-- Witness for C7: a fresh engine whose queue holds 1024 requests rejects
the next submission with the capacity error, unchanged. -/
theorem query_full_queue_witness :
    queryStep { initialEngine with queue := List.replicate 1024 0 } 7 =
      (.errCapacity, { initialEngine with queue := List.replicate 1024 0 }) :=
  (query_full_queue { initialEngine with queue := List.replicate 1024 0 } 7
    rfl (by simp [requestChanSize])).1

/-- C9: `Shutdown` is idempotent and one-way: after any call the flag is
set; a call on an already-shut-down state is a no-op; the winning call
increments the channel-close count exactly once; and however many further
`Shutdown` calls follow, the close count never moves again. -/
theorem shutdown_idempotent (s : EngineState) :
    (shutdownStep s).shutdown = true ∧
    shutdownStep (shutdownStep s) = shutdownStep s ∧
    (s.shutdown = false → (shutdownStep s).closeCount = s.closeCount + 1) ∧
    (s.shutdown = true → shutdownStep s = s) ∧
    (∀ n : Nat, (shutdownStep^[n] (shutdownStep s)).closeCount = (shutdownStep s).closeCount) := by
  have hset : ∀ t : EngineState, (shutdownStep t).shutdown = true := by
    intro t
    by_cases h : t.shutdown <;> simp [shutdownStep, h]
  have hnoop : ∀ t : EngineState, t.shutdown = true → shutdownStep t = t := by
    intro t ht
    simp [shutdownStep, ht]
  have hfix : ∀ n : Nat, shutdownStep^[n] (shutdownStep s) = shutdownStep s := by
    intro n
    induction n with
    | zero => rfl
    | succ n ih =>
      rw [Function.iterate_succ_apply', ih]
      exact hnoop (shutdownStep s) (hset s)
  refine ⟨hset s, hnoop (shutdownStep s) (hset s), fun h => ?_, fun h => ?_, fun n => by rw [hfix n]⟩
  · simp [shutdownStep, h]
  · simp [shutdownStep, h]

/-- Witness for C9: on a fresh engine the first shutdown closes the queue
once. -/
theorem shutdown_idempotent_witness :
    (shutdownStep initialEngine).closeCount = initialEngine.closeCount + 1 :=
  (shutdown_idempotent initialEngine).2.2.1 rfl

/-- C1 (failing execution): with one query already enqueued, a completed
`Shutdown` followed by the worker's next loop-condition check makes the
worker exit (closing the connection) with the query still in the queue and
never completed: its `wg.Done` never fires, so the spec's drain-then-exit
guarantee does not hold — the loop condition `!p.shutdown.Load()` exits
before the `ok = false` drain path can consume buffered requests. -/
theorem start_abandons_enqueued_query :
    (workerStep (shutdownStep { initialEngine with queue := [1] })).workerExited = true ∧
    (workerStep (shutdownStep { initialEngine with queue := [1] })).connClosed = true ∧
    (workerStep (shutdownStep { initialEngine with queue := [1] })).done = [] ∧
    (workerStep (shutdownStep { initialEngine with queue := [1] })).queue = [1] ∧
    workerStep (workerStep (shutdownStep { initialEngine with queue := [1] })) =
      workerStep (shutdownStep { initialEngine with queue := [1] }) := by
  decide

/-! ### The `trstr` scan loop, characterised -/

/-- If every byte from index `i` through the end of the scan window is
nonzero, the loop falls through and keeps the whole buffer. -/
lemma trstrLoop_all_nonzero (cStr : List Nat) :
    ∀ fuel i, (∀ j, i ≤ j → j < i + fuel → cStr.getD j 0 ≠ 0) →
      trstrLoop cStr i fuel = some cStr
  | 0, _, _ => rfl
  | fuel + 1, i, h => by
    rw [trstrLoop, if_neg (h i le_rfl (by omega))]
    exact trstrLoop_all_nonzero cStr fuel (i + 1) (fun j hj1 hj2 => h j (by omega) (by omega))

/-- If the first zero byte at or after index `i` sits at index `k` inside
the scan window, the loop stops there and keeps the first `k` bytes. -/
lemma trstrLoop_first_zero (cStr : List Nat) :
    ∀ fuel i k, i ≤ k → k < i + fuel → cStr.getD k 0 = 0 →
      (∀ j, i ≤ j → j < k → cStr.getD j 0 ≠ 0) →
      trstrLoop cStr i fuel = some (cStr.take k)
  | 0, i, k, h1, h2, _, _ => absurd h2 (by omega)
  | fuel + 1, i, k, h1, h2, hk, hnz => by
    rcases Nat.eq_or_lt_of_le h1 with rfl | hik
    · rw [trstrLoop, if_pos hk]
    · rw [trstrLoop, if_neg (hnz i le_rfl hik)]
      exact trstrLoop_first_zero cStr fuel (i + 1) k (by omega) (by omega) hk
        (fun j hj1 hj2 => hnz j (by omega) hj2)

/-- C3: `trstr` on a 32-byte buffer: a zero first byte yields `none`
(absent); a first zero byte at offset `i`, `1 ≤ i < 32`, yields exactly
the first `i` bytes; a buffer with no zero byte anywhere yields the full
32 bytes untruncated. -/
theorem trstr_decode (cStr : List Nat) (hlen : cStr.length = 32) :
    (cStr.getD 0 0 = 0 → trstr cStr = none) ∧
    (∀ i, 1 ≤ i → i < 32 → cStr.getD i 0 = 0 →
      (∀ j, j < i → cStr.getD j 0 ≠ 0) → trstr cStr = some (cStr.take i)) ∧
    ((∀ j, j < 32 → cStr.getD j 0 ≠ 0) → trstr cStr = some cStr) := by
  refine ⟨fun h => by rw [trstr, if_pos h], fun i h1 h2 hz hnz => ?_, fun hnz => ?_⟩
  · rw [trstr, if_neg (hnz 0 h1)]
    exact trstrLoop_first_zero cStr 31 1 i h1 (by omega) hz (fun j hj1 hj2 => hnz j hj2)
  · rw [trstr, if_neg (hnz 0 (by omega))]
    exact trstrLoop_all_nonzero cStr 31 1 (fun j hj1 hj2 => hnz j (by omega))

/-- Witness for C3: the buffer `"Linux\0...\0"` decodes to its first five
bytes, the zero at offset 5 truncating the rest. -/
theorem trstr_decode_witness :
    trstr ([76, 105, 110, 117, 120] ++ List.replicate 27 0) = some [76, 105, 110, 117, 120] := by
  rw [(trstr_decode ([76, 105, 110, 117, 120] ++ List.replicate 27 0) (by decide)).2.1 5
    (by decide) (by decide) (by decide) (by decide)]
  decide

/-- Whenever the scan loop returns a value and all bytes before its start
index are nonzero, the value is between 1 and 32 bytes long and zero-free. -/
lemma trstrLoop_some_props (cStr : List Nat) (hlen : cStr.length = 32) :
    ∀ fuel i s, 1 ≤ i → i + fuel = 32 →
      (∀ j, j < i → cStr.getD j 0 ≠ 0) →
      trstrLoop cStr i fuel = some s →
      1 ≤ s.length ∧ s.length ≤ 32 ∧ ∀ b ∈ s, b ≠ 0
  | 0, i, s, h1, h2, hnz, hs => by
    rw [trstrLoop] at hs
    obtain rfl : cStr = s := by simpa using hs
    refine ⟨by omega, by omega, fun b hb => ?_⟩
    obtain ⟨j, hj, rfl⟩ := List.mem_iff_getElem.mp hb
    have := hnz j (by omega)
    rwa [List.getD_eq_getElem cStr 0 hj] at this
  | fuel + 1, i, s, h1, h2, hnz, hs => by
    rw [trstrLoop] at hs
    by_cases h0 : cStr.getD i 0 = 0
    · rw [if_pos h0] at hs
      obtain rfl : cStr.take i = s := by simpa using hs
      have hl : (cStr.take i).length = i := by
        rw [List.length_take]
        omega
      refine ⟨by omega, by omega, fun b hb => ?_⟩
      obtain ⟨j, hj, rfl⟩ := List.mem_iff_getElem.mp hb
      rw [hl] at hj
      have hj32 : j < cStr.length := by omega
      have := hnz j hj
      rw [List.getD_eq_getElem cStr 0 hj32] at this
      simpa [List.getElem_take] using this
    · rw [if_neg h0] at hs
      exact trstrLoop_some_props cStr hlen fuel (i + 1) s (by omega) (by omega)
        (fun j hj => by
          rcases Nat.lt_or_ge j i with hji | hji
          · exact hnz j hji
          · have : j = i := by omega
            rwa [this]) hs

/-- C10 (implicit invariant): whenever `trstr` returns a present value from
a 32-byte buffer, that value is non-empty, between 1 and 32 bytes long,
and free of zero bytes — so absent (`none`) and the empty string are never
conflated. -/
theorem trstr_present_invariant (cStr s : List Nat) (hlen : cStr.length = 32)
    (h : trstr cStr = some s) :
    s ≠ [] ∧ 1 ≤ s.length ∧ s.length ≤ 32 ∧ ∀ b ∈ s, b ≠ 0 := by
  rw [trstr] at h
  by_cases h0 : cStr.getD 0 0 = 0
  · rw [if_pos h0] at h
    exact absurd h (by simp)
  · rw [if_neg h0] at h
    have props := trstrLoop_some_props cStr hlen 31 1 s (by omega) (by omega)
      (fun j hj => by
        have : j = 0 := by omega
        rwa [this]) h
    exact ⟨fun hnil => by simp [hnil] at props, props.1, props.2.1, props.2.2⟩

/-- Witness for C10: the `"Linux"` buffer's decoded value has the
invariant's shape. -/
theorem trstr_present_invariant_witness :
    ([76, 105, 110, 117, 120] : List Nat) ≠ [] ∧
    1 ≤ ([76, 105, 110, 117, 120] : List Nat).length ∧
    ([76, 105, 110, 117, 120] : List Nat).length ≤ 32 ∧
    ∀ b ∈ ([76, 105, 110, 117, 120] : List Nat), b ≠ 0 :=
  trstr_present_invariant ([76, 105, 110, 117, 120] ++ List.replicate 27 0)
    [76, 105, 110, 117, 120] (by decide) (by decide)

/-- C2: request frames are exactly 21 bytes: the send magic `0x50304601`
at bytes 0-3 in native order, the family byte `4` or `6` at offset 4, and
the address left-aligned from offset 5 in a zero-padded 16-byte field —
an IPv4 address fills bytes 5-8 with bytes 9-20 all zero, an IPv6 address
fills all of bytes 5-20. -/
theorem writeRequest_frame (bs4 bs16 : List Nat)
    (h4 : bs4.length = 4) (h16 : bs16.length = 16) :
    writeRequest (.v4 bs4) = putUint32 magicBytesSend ++ [4] ++ bs4 ++ List.replicate 12 0 ∧
    (writeRequest (.v4 bs4)).length = 21 ∧
    (writeRequest (.v4 bs4)).take 4 = putUint32 magicBytesSend ∧
    (writeRequest (.v4 bs4)).getD 4 0 = 4 ∧
    ((writeRequest (.v4 bs4)).drop 5).take 4 = bs4 ∧
    (writeRequest (.v4 bs4)).drop 9 = List.replicate 12 0 ∧
    writeRequest (.v6 bs16) = putUint32 magicBytesSend ++ [6] ++ bs16 ∧
    (writeRequest (.v6 bs16)).length = 21 ∧
    (writeRequest (.v6 bs16)).take 4 = putUint32 magicBytesSend ∧
    (writeRequest (.v6 bs16)).getD 4 0 = 6 ∧
    (writeRequest (.v6 bs16)).drop 5 = bs16 := by
  have e4 : writeRequest (.v4 bs4) = [1, 70, 48, 80, 4] ++ (bs4 ++ List.replicate 12 0) := by
    simp [writeRequest, putUint32, magicBytesSend, ipv4Dword, h4]
  have e16 : writeRequest (.v6 bs16) = [1, 70, 48, 80, 6] ++ bs16 := by
    simp [writeRequest, putUint32, magicBytesSend, ipv6Dword, h16]
  refine ⟨?_, ?_, ?_, ?_, ?_, ?_, ?_, ?_, ?_, ?_, ?_⟩
  · rw [e4]
    simp [putUint32, magicBytesSend]
  · rw [e4]
    simp [h4]
  · rw [e4]
    rfl
  · rw [e4]
    rfl
  · rw [e4]
    have hdrop : (([1, 70, 48, 80, 4] : List Nat) ++ (bs4 ++ List.replicate 12 0)).drop 5 =
        bs4 ++ List.replicate 12 0 := rfl
    rw [hdrop, ← h4, List.take_left]
  · rw [e4]
    have hdrop : (([1, 70, 48, 80, 4] : List Nat) ++ (bs4 ++ List.replicate 12 0)).drop 9 =
        (bs4 ++ List.replicate 12 0).drop 4 := rfl
    rw [hdrop, ← h4, List.drop_left]
  · rw [e16]
    simp [putUint32, magicBytesSend]
  · rw [e16]
    simp [h16]
  · rw [e16]
    rfl
  · rw [e16]
    rfl
  · rw [e16]
    rfl

/-- Witness for C2: the loopback IPv4 address encodes to the magic, the
family byte 4, the four address bytes and twelve zero bytes. -/
theorem writeRequest_frame_witness :
    writeRequest (.v4 [127, 0, 0, 1]) =
      putUint32 magicBytesSend ++ [4] ++ [127, 0, 0, 1] ++ List.replicate 12 0 :=
  (writeRequest_frame [127, 0, 0, 1] [0, 0, 0, 0, 0, 0, 0, 0, 0, 0, 0, 0, 0, 0, 0, 1]
    (by decide) (by decide)).1
